import Mathlib

/-!
Shallow embedding of the `macro-map` crate (`src/lib.rs`).

The crate consists of four declarative rewrite rules and two unit-test helper
functions.  Each rewrite rule expands an invocation into a `match` expression;
we embed the *expansion* of each rule as a Lean function.  The replacement
expression of an invocation is represented as a function so that the embedding
records in which branch it is evaluated.  The early `return` performed by the
`try_` variants is modelled with `Except`: `Except.ok v` means the expansion
yields `v` and the enclosing function continues, `Except.error ret` means the
enclosing function immediately returns the value `ret`.
-/

namespace MacroMap

/-- Rust's `Result<T, E>` type, with the success type first as in Rust. -/
inductive RustResult (α ε : Type) where
  | Ok : α → RustResult α ε
  | Err : ε → RustResult α ε
  deriving DecidableEq, Repr

/-- Rust's one-element tuple `(T,)`, used by the unit tests' error type
`(MyNonCopy,)`. -/
structure Tuple1 (α : Type) where
  fst : α
  deriving DecidableEq, Repr

/-- Expansion of the `map_err!` macro (src/lib.rs lines 48-55):
`match $result { Ok(val) => Ok(val), Err($err) => Err($closure) }`.
The replacement expression `$closure`, with the pattern `$err` bound, is
represented by the function `closure`. -/
def map_err (result : RustResult α ε) (closure : ε → ε2) : RustResult α ε2 :=
  match result with
  | .Ok val => .Ok val
  | .Err err => .Err (closure err)

/-- Expansion of the `ok_or_else!` macro (src/lib.rs lines 84-91):
`match $result { Some(val) => Ok(val), None => Err($closure) }`.
The replacement expression `$closure` takes no arguments, so it is
represented by a thunk. -/
def ok_or_else (result : Option α) (closure : Unit → ε) : RustResult α ε :=
  match result with
  | some val => .Ok val
  | none => .Err (closure ())

/-- Expansion of the `try_map_err!` macro (src/lib.rs lines 129-136):
`match $result { Ok(val) => val, Err($err) => return Err($closure.into()) }`.
The ambient `Into` conversion applied to the replacement value is the
function `into`; `ρ` is the error type of the enclosing function, whose
return type is `RustResult β ρ`. -/
def try_map_err (result : RustResult α ε) (closure : ε → ε2) (into : ε2 → ρ) :
    Except (RustResult β ρ) α :=
  match result with
  | .Ok val => .ok val
  | .Err err => .error (.Err (into (closure err)))

/-- Expansion of the `try_ok_or_else!` macro (src/lib.rs lines 174-181):
`match $result { Some(val) => val, None => return Err($closure.into()) }`. -/
def try_ok_or_else (result : Option α) (closure : Unit → ε2) (into : ε2 → ρ) :
    Except (RustResult β ρ) α :=
  match result with
  | some val => .ok val
  | none => .error (.Err (into (closure ())))

/-- The unit-test helper `result` (src/lib.rs lines 192-197):
`fn result(a: MyNonCopy, cond: Result<(), ()>) -> Result<MyNonCopy, (MyNonCopy,)>`
whose body is `cond.try_map_err!(|_| (a,)); Ok(a)`.  The `Into` conversion is
the identity (`Into<T> for T`); an early return from `try_map_err!` becomes
the function's result, otherwise the function returns `Ok(a)`.  The test's
`MyNonCopy` type is generalised to an arbitrary type `α`. -/
def result (a : α) (cond : RustResult Unit Unit) : RustResult α (Tuple1 α) :=
  match try_map_err (β := α) cond (fun _ => Tuple1.mk a) id with
  | .error ret => ret
  | .ok _ => .Ok a

/-- The unit-test helper `option` (src/lib.rs lines 199-204):
`fn option(a: MyNonCopy, cond: Option<()>) -> Result<MyNonCopy, (MyNonCopy,)>`
whose body is `cond.try_ok_or_else!(|| (a,)); Ok(a)`. -/
def option (a : α) (cond : Option Unit) : RustResult α (Tuple1 α) :=
  match try_ok_or_else (β := α) cond (fun _ => Tuple1.mk a) id with
  | .error ret => ret
  | .ok _ => .Ok a

/-- Modelled from the spec: the closure-based standard-library call
`Result::map_err(self, op)` that the spec says the `map_err!` expansion is
equivalent to ("a pattern-match expression equivalent to calling
`map_err` ... with a closure").  Maps a function over the contained `Err`
value, leaving an `Ok` value untouched. -/
def mapErrLib (r : RustResult α ε) (op : ε → ε2) : RustResult α ε2 :=
  match r with
  | .Ok t => .Ok t
  | .Err e => .Err (op e)

/-- Modelled from the spec: the closure-based standard-library call
`Option::ok_or_else(self, err)` that the spec says the `ok_or_else!`
expansion is equivalent to.  Transforms `Some(v)` into `Ok(v)` and `None`
into `Err(err())`. -/
def okOrElseLib (o : Option α) (err : Unit → ε) : RustResult α ε :=
  match o with
  | some v => .Ok v
  | none => .Err (err ())

/-- C1: each macro's expansion is equivalent to the corresponding
closure-based library call: for every `Result` value `r` and replacement
function `f`, the expansion of `map_err!(r, |e| f(e))` equals
`r.map_err(f)`, and for every `Option` value `o` and replacement thunk `g`,
the expansion of `ok_or_else!(o, || g())` equals `o.ok_or_else(g)`. -/
theorem map_err_ok_or_else_eq_library_calls :
    (∀ (α ε ε2 : Type) (r : RustResult α ε) (f : ε → ε2),
      map_err r f = mapErrLib r f) ∧
    (∀ (α ε : Type) (o : Option α) (g : Unit → ε),
      ok_or_else o g = okOrElseLib o g) := by
  constructor
  · intro α ε ε2 r f
    cases r <;> rfl
  · intro α ε o g
    cases o <;> rfl

/-- C2: for every `Result` value, if it is `Ok(v)` the `map_err!` expansion
evaluates to `Ok(v)` with the success value unchanged; if it is `Err(e)` the
expansion evaluates the replacement with `e` bound and produces `Err` of the
replacement's value. -/
theorem map_err_case_behaviour :
    (∀ (α ε ε2 : Type) (v : α) (f : ε → ε2),
      map_err (.Ok v) f = (.Ok v : RustResult α ε2)) ∧
    (∀ (α ε ε2 : Type) (e : ε) (f : ε → ε2),
      map_err (.Err e) f = (.Err (f e) : RustResult α ε2)) :=
  ⟨fun _ _ _ _ _ => rfl, fun _ _ _ _ _ => rfl⟩

/-- C3: for every `Option` value, if it is `Some(v)` the `ok_or_else!`
expansion evaluates to `Ok(v)`, success wrapping the present value; if it is
`None` the expansion evaluates the replacement and produces `Err` of the
replacement's value. -/
theorem ok_or_else_case_behaviour :
    (∀ (α ε : Type) (v : α) (g : Unit → ε),
      ok_or_else (some v) g = (.Ok v : RustResult α ε)) ∧
    (∀ (α ε : Type) (g : Unit → ε),
      ok_or_else (none : Option α) g = (.Err (g ()) : RustResult α ε)) :=
  ⟨fun _ _ _ _ => rfl, fun _ _ _ => rfl⟩

/-- C4: for every `Result` value, if it is `Ok(v)` the `try_map_err!`
expansion yields the unwrapped `v` as the expression's result and the
enclosing function continues; if it is `Err(e)` the enclosing function
immediately returns `Err` of the replacement's value converted via the
ambient `Into` conversion, with `e` bound in the replacement. -/
theorem try_map_err_case_behaviour :
    (∀ (α β ε ε2 ρ : Type) (v : α) (f : ε → ε2) (into : ε2 → ρ),
      try_map_err (β := β) (.Ok v) f into = .ok v) ∧
    (∀ (α β ε ε2 ρ : Type) (e : ε) (f : ε → ε2) (into : ε2 → ρ),
      try_map_err (α := α) (β := β) (.Err e) f into =
        .error (.Err (into (f e)))) :=
  ⟨fun _ _ _ _ _ _ _ _ => rfl, fun _ _ _ _ _ _ _ _ => rfl⟩

/-- C5: for every `Option` value, if it is `Some(v)` the `try_ok_or_else!`
expansion yields the unwrapped `v` and the enclosing function continues; if
it is `None` the enclosing function immediately returns `Err` of the
replacement's value converted via the ambient `Into` conversion. -/
theorem try_ok_or_else_case_behaviour :
    (∀ (α β ε2 ρ : Type) (v : α) (g : Unit → ε2) (into : ε2 → ρ),
      try_ok_or_else (β := β) (some v) g into = .ok v) ∧
    (∀ (α β ε2 ρ : Type) (g : Unit → ε2) (into : ε2 → ρ),
      try_ok_or_else (α := α) (β := β) none g into =
        .error (.Err (into (g ())))) :=
  ⟨fun _ _ _ _ _ _ _ => rfl, fun _ _ _ _ _ _ => rfl⟩

/-- C6: in the unit-test scenarios, a success-shaped condition makes the
rewritten expression return the original value unchanged and the function
proceed: for every value `a`, `result(a, Ok(()))` returns `Ok(a)` and
`option(a, Some(()))` returns `Ok(a)`. -/
theorem tests_success_shape :
    ∀ (α : Type) (a : α),
      result a (.Ok ()) = .Ok a ∧ option a (some ()) = .Ok a :=
  fun _ _ => ⟨rfl, rfl⟩

/-- C7: in the unit-test scenarios, a failure/absent-shaped condition makes
the function exit immediately with a failure value built from the
originally-owned data: for every value `a`, `result(a, Err(()))` returns
`Err((a,))` whose tuple contains exactly the `a` that was passed in, and
`option(a, None)` returns `Err((a,))` likewise. -/
theorem tests_failure_shape :
    ∀ (α : Type) (a : α),
      result a (.Err ()) = .Err (Tuple1.mk a) ∧
      option a none = .Err (Tuple1.mk a) :=
  fun _ _ => ⟨rfl, rfl⟩

/-- C8: on a success-shaped input the outcome never depends on the
replacement expression (it is only evaluated on the error/absent branch):
for every success value `v` and any two replacements `f1`, `f2` (and for the
`try_` variants also any two ambient conversions), the expansions agree. -/
theorem success_outcome_independent_of_replacement :
    (∀ (α ε ε2 : Type) (v : α) (f1 f2 : ε → ε2),
      map_err (.Ok v) f1 = map_err (.Ok v) f2) ∧
    (∀ (α ε : Type) (v : α) (g1 g2 : Unit → ε),
      ok_or_else (some v) g1 = ok_or_else (some v) g2) ∧
    (∀ (α β ε ε2 ρ : Type) (v : α) (f1 f2 : ε → ε2) (i1 i2 : ε2 → ρ),
      try_map_err (β := β) (.Ok v) f1 i1 = try_map_err (β := β) (.Ok v) f2 i2) ∧
    (∀ (α β ε2 ρ : Type) (v : α) (g1 g2 : Unit → ε2) (i1 i2 : ε2 → ρ),
      try_ok_or_else (β := β) (some v) g1 i1 =
        try_ok_or_else (β := β) (some v) g2 i2) :=
  ⟨fun _ _ _ _ _ _ => rfl, fun _ _ _ _ _ => rfl,
   fun _ _ _ _ _ _ _ _ _ _ => rfl, fun _ _ _ _ _ _ _ _ _ => rfl⟩

/-- C9: identity law: for every `Result` value `r`, the expansion of
`map_err!` with the identity replacement, `map_err!(r, |e| e)`, equals `r`
itself. -/
theorem map_err_identity :
    ∀ (α ε : Type) (r : RustResult α ε), map_err r (fun e => e) = r := by
  intro α ε r
  cases r <;> rfl

/-- C10: the `try_` variants refine the non-`try` variants composed with
early return and `Into`-conversion: modelling the early return as `Except`,
`try_map_err!(r, |e| f(e))` succeeds with `v` exactly when
`map_err!(r, |e| f(e))` is `Ok(v)`, and exits the enclosing function with
`Err(x.into())` exactly when `map_err!(r, |e| f(e))` is `Err(x)`; the
analogous relation holds between `try_ok_or_else!` and `ok_or_else!`. -/
theorem try_variants_refine_nontry :
    (∀ (α β ε ε2 ρ : Type) (r : RustResult α ε) (f : ε → ε2) (into : ε2 → ρ),
      (try_map_err (β := β) r f into =
        match map_err r f with
        | .Ok v => .ok v
        | .Err x => .error (.Err (into x))) ∧
      ∀ v, try_map_err (β := β) r f into = .ok v ↔ map_err r f = .Ok v) ∧
    (∀ (α β ε2 ρ : Type) (o : Option α) (g : Unit → ε2) (into : ε2 → ρ),
      (try_ok_or_else (β := β) o g into =
        match ok_or_else o g with
        | .Ok v => .ok v
        | .Err x => .error (.Err (into x))) ∧
      ∀ v, try_ok_or_else (β := β) o g into = .ok v ↔ ok_or_else o g = .Ok v) := by
  constructor
  · intro α β ε ε2 ρ r f into
    cases r <;> simp [try_map_err, map_err]
  · intro α β ε2 ρ o g into
    cases o <;> simp [try_ok_or_else, ok_or_else]

end MacroMap
